import Mathlib

/-!
Shallow embedding of `src/python/valuecell/utils/logger.py`
(module `valuecell.utils.logger`), which configures the loguru logging
backend: `get_log_dir` resolves the log directory from the environment and
`setup_logger` registers console and file sinks.

The process environment is a record of the four variables the module reads.
Paths are strings.  The sink registry of the loguru backend and the filesystem
effects (`mkdir`) are made explicit as state threaded through the functions;
a propagating Python exception is modelled by `PyResult.exn`, which carries
the (already mutated) state at the moment the exception is raised.
-/

namespace ValuecellLogger

/-- The process environment restricted to the variables read by the module:
`LOG_DIR`, `LOG_LEVEL`, `LOG_ROTATION`, `LOG_RETENTION`.  A field is `none`
when the variable is unset; `some s` when it is set to `s` (possibly empty). -/
structure Env where
  LOG_DIR : Option String
  LOG_LEVEL : Option String
  LOG_ROTATION : Option String
  LOG_RETENTION : Option String
deriving Repr, DecidableEq

/-- Embeds `os.getenv(name)` for the four variables the module reads. -/
def getenv (e : Env) : String → Option String
  | "LOG_DIR" => e.LOG_DIR
  | "LOG_LEVEL" => e.LOG_LEVEL
  | "LOG_ROTATION" => e.LOG_ROTATION
  | "LOG_RETENTION" => e.LOG_RETENTION
  | _ => none

/-- Embeds `os.getenv(name, default)`: the value of the variable when set, else the default. -/
def getenvD (e : Env) (name default : String) : String :=
  (getenv e name).getD default

/-- Python truthiness of an optional string: `None` and `""` are falsy. -/
def pyTruthy : Option String → Bool
  | none => false
  | some s => s ≠ ""

/-- Embeds `str(b)` for a Python bool. -/
def pyStr (b : Bool) : String :=
  if b then "True" else "False"

/-- Modelled from the spec: `get_system_env_dir` lives in
`valuecell/utils/env.py`, which is not part of this fragment; the spec
treats it as "an opaque provider of a single path value".  The model
therefore takes that single value as the parameter `sysEnvDir`, which this
definition merely passes through. -/
def get_system_env_dir (sysEnvDir : String) : String := sysEnvDir

/-- Embeds `get_log_dir()` (logger.py lines 12-28): returns `LOG_DIR` when
that variable is set and non-empty, else `get_system_env_dir() / "logs"`. -/
def get_log_dir (sysEnvDir : String) (e : Env) : String :=
  let log_dir_env := getenv e "LOG_DIR"
  if pyTruthy log_dir_env then log_dir_env.getD ""
  else get_system_env_dir sysEnvDir ++ "/logs"

/-- Embeds `str.upper()` of Python, restricted to what the module feeds it (ASCII level
names): character-wise uppercasing. -/
def strToUpper (s : String) : String := String.mk (s.data.map Char.toUpper)

/-- Embeds `os.getenv("LOG_LEVEL", log_level).upper()` (logger.py line 52). -/
def effective_log_level (e : Env) (log_level : String) : String :=
  strToUpper (getenvD e "LOG_LEVEL" log_level)

/-- Embeds `os.getenv("LOG_ROTATION", rotation)` (logger.py line 53). -/
def effective_rotation (e : Env) (rotation : String) : String :=
  getenvD e "LOG_ROTATION" rotation

/-- Embeds `os.getenv("LOG_RETENTION", retention)` (logger.py line 54). -/
def effective_retention (e : Env) (retention : String) : String :=
  getenvD e "LOG_RETENTION" retention

/-- Destination of a loguru sink: the standard-error stream, or a file path
pattern (a path whose basename still holds the `\x7btime\x7d` template). -/
inductive SinkDest where
  | stderr : SinkDest
  | file : String → SinkDest
deriving Repr, DecidableEq

/-- One registered loguru sink, holding exactly the keyword arguments
`setup_logger` passes to `logger.add`.  Absent keyword arguments are recorded
as `none` / `false`. -/
structure Sink where
  dest : SinkDest
  format : String
  level : String
  colorize : Bool
  rotation : Option String
  retention : Option String
  compression : Option String
  encoding : Option String
  enqueue : Bool
  backtrace : Bool
  diagnose : Bool
deriving Repr, DecidableEq

/-- Modelled from the spec: the process-wide state of the loguru backend,
"the backend owns its own sink registry".  `sinks` is the registry in registration
order; `emitted` records every `(severity, message)` the module itself emits
through `logger.info` / `logger.debug`, in order. -/
structure LoggerState where
  sinks : List Sink
  emitted : List (String × String)
deriving Repr, DecidableEq

/-- Modelled from the spec: `logger.remove()` "clears all previously
registered sinks (idempotent reset)". -/
def loggerRemove (st : LoggerState) : LoggerState :=
  { st with sinks := [] }

/-- Modelled from the spec: `logger.add(...)` registers one more sink. -/
def loggerAdd (st : LoggerState) (s : Sink) : LoggerState :=
  { st with sinks := st.sinks ++ [s] }

/-- Embeds `logger.info(msg)`: emit one INFO-severity record. -/
def loggerInfo (st : LoggerState) (msg : String) : LoggerState :=
  { st with emitted := st.emitted ++ [("INFO", msg)] }

/-- Embeds `logger.debug(msg)`: emit one DEBUG-severity record. -/
def loggerDebug (st : LoggerState) (msg : String) : LoggerState :=
  { st with emitted := st.emitted ++ [("DEBUG", msg)] }

/-- The world `setup_logger` acts on: the backend state, the set of existing
directories, and an oracle saying on which paths `Path.mkdir` raises (an
I/O failure such as permission denied). -/
structure World where
  loggerSt : LoggerState
  dirs : List String
  mkdirFails : String → Bool

/-- Result of running a Python call: normal return, or a propagating
exception.  Either way the state reached so far is carried, because Python
exceptions do not roll back the mutations already performed. -/
inductive PyResult (α : Type) where
  | ok : α → PyResult α
  | exn : String → α → PyResult α
deriving Repr

/-- Embeds `log_dir.mkdir(parents=True, exist_ok=True)` on the directory set:
a no-op when the directory already exists, else it is added.  (Creation of
intermediate parents is not observed by any caller and is left abstract.) -/
def mkdirParents (dirs : List String) (p : String) : List String :=
  if p ∈ dirs then dirs else dirs ++ [p]

/-- The console sink registered at logger.py lines 61-66. -/
def consoleSink (log_level : String) : Sink :=
  { dest := SinkDest.stderr
    format := "<green>\x7btime:YYYY-MM-DD HH:mm:ss\x7d</green> | <level>\x7blevel: <8\x7d</level> | <cyan>\x7bname\x7d</cyan>:<cyan>\x7bfunction\x7d</cyan>:<cyan>\x7bline\x7d</cyan> - <level>\x7bmessage\x7d</level>"
    level := log_level
    colorize := true
    rotation := none
    retention := none
    compression := none
    encoding := none
    enqueue := false
    backtrace := false
    diagnose := false }

/-- The combined file sink registered at logger.py lines 78-87. -/
def combinedFileSink (log_dir rotation retention compression : String) : Sink :=
  { dest := SinkDest.file (log_dir ++ "/valuecell_\x7btime:YYYY-MM-DD\x7d.log")
    format := "\x7btime:YYYY-MM-DD HH:mm:ss\x7d | \x7blevel: <8\x7d | \x7bname\x7d:\x7bfunction\x7d:\x7bline\x7d - \x7bmessage\x7d"
    level := "DEBUG"
    colorize := false
    rotation := some rotation
    retention := some retention
    compression := some compression
    encoding := some "utf-8"
    enqueue := true
    backtrace := false
    diagnose := false }

/-- The error-only file sink registered at logger.py lines 90-101. -/
def errorFileSink (log_dir rotation retention compression : String) : Sink :=
  { dest := SinkDest.file (log_dir ++ "/error_\x7btime:YYYY-MM-DD\x7d.log")
    format := "\x7btime:YYYY-MM-DD HH:mm:ss\x7d | \x7blevel: <8\x7d | \x7bname\x7d:\x7bfunction\x7d:\x7bline\x7d - \x7bmessage\x7d\n\x7bexception\x7d"
    level := "ERROR"
    colorize := false
    rotation := some rotation
    retention := some retention
    compression := some compression
    encoding := some "utf-8"
    enqueue := true
    backtrace := true
    diagnose := true }

/-- The f-string at logger.py line 103. -/
def infoMsg (log_dir : String) : String :=
  "日志文件输出目录: " ++ log_dir

/-- The f-string at logger.py line 105. -/
def debugMsg (log_level : String) (enable_console enable_file : Bool) : String :=
  "日志配置完成 - 级别: " ++ log_level ++ ", 控制台: " ++ pyStr enable_console ++
    ", 文件: " ++ pyStr enable_file

/-- The directory resolution at logger.py lines 71-72: the caller-supplied
`log_dir` when it is not `None`, else `get_log_dir()`. -/
def resolvedDir (sysEnvDir : String) (e : Env) (log_dir : Option String) : String :=
  match log_dir with
  | some d => d
  | none => get_log_dir sysEnvDir e

/-- Embeds `setup_logger` (logger.py lines 31-105).  Parameters appear in
source order; `log_dir = none` stands for the Python default `log_dir=None`.
The returned `PyResult` is `exn` exactly when `log_dir.mkdir` raises. -/
def setup_logger (sysEnvDir : String) (e : Env) (log_level : String)
    (log_dir : Option String) (rotation retention compression : String)
    (enable_console enable_file : Bool) (w : World) : PyResult World :=
  let log_level := effective_log_level e log_level
  let rotation := effective_rotation e rotation
  let retention := effective_retention e retention
  let st := loggerRemove w.loggerSt
  let st := if enable_console then loggerAdd st (consoleSink log_level) else st
  if enable_file then
    let dir := resolvedDir sysEnvDir e log_dir
    if w.mkdirFails dir then
      PyResult.exn "PermissionError: mkdir" { w with loggerSt := st }
    else
      let dirs := mkdirParents w.dirs dir
      let st := loggerAdd st (combinedFileSink dir rotation retention compression)
      let st := loggerAdd st (errorFileSink dir rotation retention compression)
      let st := loggerInfo st (infoMsg dir)
      let st := loggerDebug st (debugMsg log_level enable_console enable_file)
      PyResult.ok { loggerSt := st, dirs := dirs, mkdirFails := w.mkdirFails }
  else
    let st := loggerDebug st (debugMsg log_level enable_console enable_file)
    PyResult.ok { w with loggerSt := st }

/-- Modelled from the spec: the loguru severity numbers for the level names
the spec mentions, used to express "all levels ≥ DEBUG" / "levels ≥ ERROR
only". -/
def levelNo : String → Option Nat
  | "TRACE" => some 5
  | "DEBUG" => some 10
  | "INFO" => some 20
  | "SUCCESS" => some 25
  | "WARNING" => some 30
  | "ERROR" => some 40
  | "CRITICAL" => some 50
  | _ => none

/-- Modelled from the spec: a sink "receives formatted log records at or
above a minimum level" — a record of severity `recordLevel` is routed to `s`
iff the minimum severity number of the sink is ≤ that of the record. -/
def routedTo (s : Sink) (recordLevel : String) : Bool :=
  match levelNo s.level, levelNo recordLevel with
  | some a, some b => a ≤ b
  | _, _ => false

/-- Whether a sink is a file sink. -/
def isFileSink (s : Sink) : Bool :=
  match s.dest with
  | SinkDest.file _ => true
  | SinkDest.stderr => false

/-- Whether a sink targets standard error. -/
def isConsoleSink (s : Sink) : Bool :=
  match s.dest with
  | SinkDest.stderr => true
  | SinkDest.file _ => false

/-- The sink registry left behind by a call, whether it returned or raised. -/
def resultSinks : PyResult World → List Sink
  | PyResult.ok w => w.loggerSt.sinks
  | PyResult.exn _ w => w.loggerSt.sinks

/-- Does character list `l` start with `pat`? -/
def leadsWith : List Char → List Char → Bool
  | [], _ => true
  | _ :: _, [] => false
  | a :: as, b :: bs => a == b && leadsWith as bs

/-- Does `pat` occur as a contiguous run inside `l`? -/
def hasRun (pat : List Char) : List Char → Bool
  | [] => leadsWith pat []
  | a :: rest => leadsWith pat (a :: rest) || hasRun pat rest

/-- Does string `s` contain `pat` as a substring? -/
def strHas (s pat : String) : Bool := hasRun pat.data s.data

/-- Concrete data for witnesses. -/
def envNone : Env :=
  { LOG_DIR := none, LOG_LEVEL := none, LOG_ROTATION := none, LOG_RETENTION := none }

def blankSt : LoggerState := { sinks := [], emitted := [] }

def worldOk : World := { loggerSt := blankSt, dirs := [], mkdirFails := fun _ => false }

/-- Witness environment with only `LOG_LEVEL` set, the scenario of the spec
test `LOG_LEVEL=debug` with the other variables unset. -/
def envLevelOnly : Env :=
  { LOG_DIR := none, LOG_LEVEL := some "debug", LOG_ROTATION := none,
    LOG_RETENTION := none }

/-- Witness environment with all three override variables set. -/
def envDRT : Env :=
  { LOG_DIR := none, LOG_LEVEL := some "debug", LOG_ROTATION := some "1 GB",
    LOG_RETENTION := some "7 days" }

/-- The world after a call, whether it returned normally or raised. -/
def resultWorld : PyResult World → World
  | PyResult.ok w => w
  | PyResult.exn _ w => w

/-- World whose prior registry holds one sink and whose mkdir always fails. -/
def worldBadMkdir : World :=
  { loggerSt := { sinks := [consoleSink "WARNING"], emitted := [] }, dirs := [],
    mkdirFails := fun _ => true }

/-- The world after the witness call with console and file enabled. -/
def worldAfterFile : World :=
  { loggerSt :=
    { sinks := [consoleSink "INFO",
        combinedFileSink "/sys/logs" "10 MB" "30 days" "zip",
        errorFileSink "/sys/logs" "10 MB" "30 days" "zip"]
      emitted := [("INFO", infoMsg "/sys/logs"), ("DEBUG", debugMsg "INFO" true true)] }
    dirs := ["/sys/logs"]
    mkdirFails := fun _ => false }

set_option linter.unreachableTactic false
set_option linter.unusedTactic false

/-- Sinks/emissions left by `setup_logger`, in closed form: a case split on
`enable_file` and on whether `mkdir` raises. -/
theorem setup_logger_eq (sysEnvDir : String) (e : Env) (lv : String)
    (ld : Option String) (rot ret comp : String) (ec ef : Bool) (w : World) :
    setup_logger sysEnvDir e lv ld rot ret comp ec ef w =
      if ef then
        if w.mkdirFails (resolvedDir sysEnvDir e ld) then
          PyResult.exn "PermissionError: mkdir"
            { w with loggerSt :=
              { sinks := if ec then [consoleSink (effective_log_level e lv)] else []
                emitted := w.loggerSt.emitted } }
        else
          PyResult.ok
            { loggerSt :=
              { sinks :=
                  (if ec then [consoleSink (effective_log_level e lv)] else []) ++
                  [combinedFileSink (resolvedDir sysEnvDir e ld) (effective_rotation e rot)
                     (effective_retention e ret) comp,
                   errorFileSink (resolvedDir sysEnvDir e ld) (effective_rotation e rot)
                     (effective_retention e ret) comp]
                emitted := w.loggerSt.emitted ++
                  [("INFO", infoMsg (resolvedDir sysEnvDir e ld)),
                   ("DEBUG", debugMsg (effective_log_level e lv) ec true)] }
              dirs := mkdirParents w.dirs (resolvedDir sysEnvDir e ld)
              mkdirFails := w.mkdirFails }
      else
        PyResult.ok
          { w with loggerSt :=
            { sinks := if ec then [consoleSink (effective_log_level e lv)] else []
              emitted := w.loggerSt.emitted ++
                [("DEBUG", debugMsg (effective_log_level e lv) ec false)] } } := by
  cases ec <;> cases ef <;>
    by_cases h : w.mkdirFails (resolvedDir sysEnvDir e ld) <;>
    simp [setup_logger, loggerRemove, loggerAdd, loggerInfo, loggerDebug, h]

/-- C1: `get_log_dir` returns the value of `LOG_DIR` when that variable is
set and non-empty, and `<systemEnvDir>/logs` when it is unset or empty; it is
a total function into paths, with no error result. -/
theorem C1_get_log_dir (sysEnvDir : String) (e : Env) :
    (∀ s : String, e.LOG_DIR = some s → s ≠ "" → get_log_dir sysEnvDir e = s) ∧
    (e.LOG_DIR = none ∨ e.LOG_DIR = some "" →
      get_log_dir sysEnvDir e = sysEnvDir ++ "/logs") := by
  constructor
  · intro s hs hne
    simp [get_log_dir, getenv, hs, pyTruthy, hne]
  · intro h
    rcases h with h | h <;>
      simp [get_log_dir, getenv, h, pyTruthy, get_system_env_dir]

theorem C1_get_log_dir_witness :
    get_log_dir "/sys" { envNone with LOG_DIR := some "/tmp/x" } = "/tmp/x" ∧
    get_log_dir "/sys" envNone = "/sys/logs" ∧
    get_log_dir "/sys" { envNone with LOG_DIR := some "" } = "/sys/logs" :=
  ⟨(C1_get_log_dir "/sys" { envNone with LOG_DIR := some "/tmp/x" }).1 "/tmp/x" rfl
      (by decide),
   (C1_get_log_dir "/sys" envNone).2 (Or.inl rfl),
   (C1_get_log_dir "/sys" { envNone with LOG_DIR := some "" }).2 (Or.inr rfl)⟩

/-- C2: each of `LOG_LEVEL`, `LOG_ROTATION`, `LOG_RETENTION` — independently
of the others — takes precedence over the corresponding caller-supplied
parameter when set: the whole call is then insensitive to that parameter,
the effective value is the environment value (upper-cased for the level),
and the console sink carries the effective level. -/
theorem C2_env_precedence (sysEnvDir : String) (e : Env) :
    (∀ v lv lv2 ld rot ret comp ec ef w, e.LOG_LEVEL = some v →
      setup_logger sysEnvDir e lv ld rot ret comp ec ef w =
        setup_logger sysEnvDir e lv2 ld rot ret comp ec ef w) ∧
    (∀ r rot rot2 lv ld ret comp ec ef w, e.LOG_ROTATION = some r →
      setup_logger sysEnvDir e lv ld rot ret comp ec ef w =
        setup_logger sysEnvDir e lv ld rot2 ret comp ec ef w) ∧
    (∀ t ret ret2 lv ld rot comp ec ef w, e.LOG_RETENTION = some t →
      setup_logger sysEnvDir e lv ld rot ret comp ec ef w =
        setup_logger sysEnvDir e lv ld rot ret2 comp ec ef w) ∧
    (∀ v lv, e.LOG_LEVEL = some v → effective_log_level e lv = strToUpper v) ∧
    (∀ r rot, e.LOG_ROTATION = some r → effective_rotation e rot = r) ∧
    (∀ t ret, e.LOG_RETENTION = some t → effective_retention e ret = t) ∧
    (∀ lv ld rot ret comp ef w, ∃ rest,
      resultSinks (setup_logger sysEnvDir e lv ld rot ret comp true ef w) =
        consoleSink (effective_log_level e lv) :: rest) := by
  refine ⟨?_, ?_, ?_, ?_, ?_, ?_, ?_⟩
  · intro v lv lv2 ld rot ret comp ec ef w hlv
    have h : ∀ x, effective_log_level e x = strToUpper v := by
      intro x; simp [effective_log_level, getenvD, getenv, hlv]
    rw [setup_logger_eq, setup_logger_eq, h, h]
  · intro r rot rot2 lv ld ret comp ec ef w hro
    have h : ∀ x, effective_rotation e x = r := by
      intro x; simp [effective_rotation, getenvD, getenv, hro]
    rw [setup_logger_eq, setup_logger_eq, h, h]
  · intro t ret ret2 lv ld rot comp ec ef w hre
    have h : ∀ x, effective_retention e x = t := by
      intro x; simp [effective_retention, getenvD, getenv, hre]
    rw [setup_logger_eq, setup_logger_eq, h, h]
  · intro v lv hlv
    simp [effective_log_level, getenvD, getenv, hlv]
  · intro r rot hro
    simp [effective_rotation, getenvD, getenv, hro]
  · intro t ret hre
    simp [effective_retention, getenvD, getenv, hre]
  · intro lv ld rot ret comp ef w
    rw [setup_logger_eq]
    cases ef <;> by_cases hm : w.mkdirFails (resolvedDir sysEnvDir e ld) <;>
      simp [hm, resultSinks]

theorem C2_env_precedence_witness :
    effective_log_level envLevelOnly "INFO" = "DEBUG" ∧
    setup_logger "/sys" envLevelOnly "INFO" none "10 MB" "30 days" "zip"
        false false worldOk =
      setup_logger "/sys" envLevelOnly "WARNING" none "10 MB" "30 days" "zip"
        false false worldOk ∧
    effective_rotation envDRT "10 MB" = "1 GB" ∧
    effective_retention envDRT "30 days" = "7 days" := by
  have h1 := C2_env_precedence "/sys" envLevelOnly
  have h2 := C2_env_precedence "/sys" envDRT
  exact ⟨(h1.2.2.2.1 "debug" "INFO" rfl).trans (by decide),
    h1.1 "debug" "INFO" "WARNING" none "10 MB" "30 days" "zip" false false
      worldOk rfl,
    h2.2.2.2.2.1 "1 GB" "10 MB" rfl,
    h2.2.2.2.2.2.1 "7 days" "30 days" rfl⟩

theorem resultWorld_mkdirFails (sysEnvDir : String) (e : Env) (lv : String)
    (ld : Option String) (rot ret comp : String) (ec ef : Bool) (w : World) :
    (resultWorld (setup_logger sysEnvDir e lv ld rot ret comp ec ef w)).mkdirFails =
      w.mkdirFails := by
  rw [setup_logger_eq]
  cases ef <;> by_cases h : w.mkdirFails (resolvedDir sysEnvDir e ld) <;>
    simp [h, resultWorld]

/-- The sinks left behind by a call depend on the initial world only through
the mkdir failure oracle — never through the previously registered sinks. -/
theorem resultSinks_mkdir_only (sysEnvDir : String) (e : Env) (lv : String)
    (ld : Option String) (rot ret comp : String) (ec ef : Bool) (w w' : World)
    (h : w.mkdirFails = w'.mkdirFails) :
    resultSinks (setup_logger sysEnvDir e lv ld rot ret comp ec ef w) =
      resultSinks (setup_logger sysEnvDir e lv ld rot ret comp ec ef w') := by
  rw [setup_logger_eq, setup_logger_eq, h]
  cases ef <;> by_cases hm : w'.mkdirFails (resolvedDir sysEnvDir e ld) <;>
    simp [hm, resultSinks]

/-- C3: `setup_logger` clears every previously registered sink before adding
any, so after two consecutive calls the registry holds exactly what the
second call alone would install: running the second call from the
post-first-call world and from the original world leaves identical sinks. -/
theorem C3_second_call_determines_sinks
    (sd1 : String) (e1 : Env) (lv1 : String) (ld1 : Option String)
    (rot1 ret1 comp1 : String) (ec1 ef1 : Bool)
    (sd2 : String) (e2 : Env) (lv2 : String) (ld2 : Option String)
    (rot2 ret2 comp2 : String) (ec2 ef2 : Bool) (w : World) :
    resultSinks (setup_logger sd2 e2 lv2 ld2 rot2 ret2 comp2 ec2 ef2
        (resultWorld (setup_logger sd1 e1 lv1 ld1 rot1 ret1 comp1 ec1 ef1 w))) =
      resultSinks (setup_logger sd2 e2 lv2 ld2 rot2 ret2 comp2 ec2 ef2 w) :=
  resultSinks_mkdir_only sd2 e2 lv2 ld2 rot2 ret2 comp2 ec2 ef2 _ w
    (resultWorld_mkdirFails sd1 e1 lv1 ld1 rot1 ret1 comp1 ec1 ef1 w)

/-- C4, counterexample: when directory creation fails, configuration does
NOT leave "the sink state unchanged from before the call" — the prior sink
is already cleared by the time the exception propagates. -/
theorem C4_counterexample :
    (∃ msg w', setup_logger "/sys" envNone "INFO" none "10 MB" "30 days" "zip"
        false true worldBadMkdir = PyResult.exn msg w') ∧
    resultSinks (setup_logger "/sys" envNone "INFO" none "10 MB" "30 days" "zip"
        false true worldBadMkdir) ≠ worldBadMkdir.loggerSt.sinks := by
  refine ⟨⟨"PermissionError: mkdir",
    { worldBadMkdir with loggerSt := { sinks := [], emitted := [] } }, rfl⟩, ?_⟩
  decide

/-- C4, amended: `setup_logger` catches no I/O error — a directory-creation
failure propagates as an exception, at which point no file sink has been
registered but the prior sinks are already cleared (with the console sink
added when enabled); when directory creation succeeds the call returns
normally with both file sinks registered.  File-sink registration is thus
both-or-neither per call. -/
theorem C4_mkdir_failure_propagates (sysEnvDir : String) (e : Env) (lv : String)
    (ld : Option String) (rot ret comp : String) (ec : Bool) (w : World) :
    (w.mkdirFails (resolvedDir sysEnvDir e ld) = true →
      setup_logger sysEnvDir e lv ld rot ret comp ec true w =
        PyResult.exn "PermissionError: mkdir"
          { w with loggerSt :=
            { sinks := if ec then [consoleSink (effective_log_level e lv)] else []
              emitted := w.loggerSt.emitted } }) ∧
    (w.mkdirFails (resolvedDir sysEnvDir e ld) = false →
      ∃ w', setup_logger sysEnvDir e lv ld rot ret comp ec true w = PyResult.ok w' ∧
        (w'.loggerSt.sinks.filter isFileSink).length = 2) := by
  constructor
  · intro h
    rw [setup_logger_eq]
    simp [h]
  · intro h
    rw [setup_logger_eq]
    simp [h]
    cases ec <;>
      simp [isFileSink, consoleSink, combinedFileSink, errorFileSink]

theorem C4_mkdir_failure_propagates_witness :
    setup_logger "/sys" envNone "INFO" none "10 MB" "30 days" "zip" false true
        worldBadMkdir =
      PyResult.exn "PermissionError: mkdir"
        { worldBadMkdir with loggerSt :=
          { sinks := [], emitted := worldBadMkdir.loggerSt.emitted } } ∧
    (∃ w', setup_logger "/sys" envNone "INFO" none "10 MB" "30 days" "zip" false true
        worldOk = PyResult.ok w' ∧
      (w'.loggerSt.sinks.filter isFileSink).length = 2) :=
  ⟨(C4_mkdir_failure_propagates "/sys" envNone "INFO" none "10 MB" "30 days" "zip"
      false worldBadMkdir).1 rfl,
   (C4_mkdir_failure_propagates "/sys" envNone "INFO" none "10 MB" "30 days" "zip"
      false worldOk).2 rfl⟩

/-- C5: a normally returning call with `enable_file = true` registers exactly
two file sinks — the combined sink (level DEBUG, pattern
`valuecell_<date>.log`) and the error sink (level ERROR, pattern
`error_<date>.log`), both with the effective rotation/retention/compression
and asynchronous (`enqueue`) writes — and a record of severity ≥ ERROR is
routed to both while an INFO record is routed only to the combined sink. -/
theorem C5_two_file_sinks (sysEnvDir : String) (e : Env) (lv : String)
    (ld : Option String) (rot ret comp : String) (ec : Bool) (w w' : World)
    (d ro re : String)
    (h : setup_logger sysEnvDir e lv ld rot ret comp ec true w = PyResult.ok w')
    (hd : d = resolvedDir sysEnvDir e ld) (hro : ro = effective_rotation e rot)
    (hre : re = effective_retention e ret) :
    w'.loggerSt.sinks.filter isFileSink =
      [combinedFileSink d ro re comp, errorFileSink d ro re comp] ∧
    (combinedFileSink d ro re comp).level = "DEBUG" ∧
    (combinedFileSink d ro re comp).dest =
      SinkDest.file (d ++ "/valuecell_\x7btime:YYYY-MM-DD\x7d.log") ∧
    (errorFileSink d ro re comp).level = "ERROR" ∧
    (errorFileSink d ro re comp).dest =
      SinkDest.file (d ++ "/error_\x7btime:YYYY-MM-DD\x7d.log") ∧
    (combinedFileSink d ro re comp).rotation = some ro ∧
    (combinedFileSink d ro re comp).retention = some re ∧
    (combinedFileSink d ro re comp).compression = some comp ∧
    (combinedFileSink d ro re comp).enqueue = true ∧
    (errorFileSink d ro re comp).rotation = some ro ∧
    (errorFileSink d ro re comp).retention = some re ∧
    (errorFileSink d ro re comp).compression = some comp ∧
    (errorFileSink d ro re comp).enqueue = true ∧
    (∀ rl n, levelNo rl = some n → 40 ≤ n →
      routedTo (combinedFileSink d ro re comp) rl = true ∧
      routedTo (errorFileSink d ro re comp) rl = true) ∧
    routedTo (combinedFileSink d ro re comp) "INFO" = true ∧
    routedTo (errorFileSink d ro re comp) "INFO" = false := by
  subst hd hro hre
  rw [setup_logger_eq] at h
  by_cases hm : w.mkdirFails (resolvedDir sysEnvDir e ld)
  · simp [hm] at h
  · simp [hm] at h
    refine ⟨?_, rfl, rfl, rfl, rfl, rfl, rfl, rfl, rfl, rfl, rfl, rfl, rfl,
      ?_, rfl, rfl⟩
    · rw [← h]
      cases ec <;>
        simp [isFileSink, consoleSink, combinedFileSink, errorFileSink]
    · intro rl n hrl hn
      have h1 : ∀ a b c q, levelNo (combinedFileSink a b c q).level = some 10 :=
        fun _ _ _ _ => rfl
      have h2 : ∀ a b c q, levelNo (errorFileSink a b c q).level = some 40 :=
        fun _ _ _ _ => rfl
      simp [routedTo, h1, h2, hrl]
      omega

theorem C5_two_file_sinks_witness :
    worldAfterFile.loggerSt.sinks.filter isFileSink =
      [combinedFileSink "/sys/logs" "10 MB" "30 days" "zip",
       errorFileSink "/sys/logs" "10 MB" "30 days" "zip"] ∧
    routedTo (combinedFileSink "/sys/logs" "10 MB" "30 days" "zip") "ERROR" = true ∧
    routedTo (errorFileSink "/sys/logs" "10 MB" "30 days" "zip") "ERROR" = true ∧
    routedTo (errorFileSink "/sys/logs" "10 MB" "30 days" "zip") "INFO" = false := by
  have h := C5_two_file_sinks "/sys" envNone "INFO" none "10 MB" "30 days" "zip"
    true worldOk worldAfterFile "/sys/logs" "10 MB" "30 days" rfl rfl rfl rfl
  have hr := h.2.2.2.2.2.2.2.2.2.2.2.2.2.1 "ERROR" 40 rfl (by decide)
  exact ⟨h.1, hr.1, hr.2, h.2.2.2.2.2.2.2.2.2.2.2.2.2.2.2⟩

/-- `mkdir -p` leaves the requested directory present. -/
theorem mkdirParents_mem (dirs : List String) (p : String) :
    p ∈ mkdirParents dirs p := by
  by_cases h : p ∈ dirs <;> simp [mkdirParents, h]

/-- C6: with `enable_file = true`, the resolved directory is created before
any file sink is registered: a normal return leaves the directory existing,
and when creation fails (the only way not to create it) the propagating
state holds no file sink at all. -/
theorem C6_mkdir_before_file_sinks (sysEnvDir : String) (e : Env) (lv : String)
    (ld : Option String) (rot ret comp : String) (ec : Bool) (w : World) :
    (∀ w', setup_logger sysEnvDir e lv ld rot ret comp ec true w = PyResult.ok w' →
      resolvedDir sysEnvDir e ld ∈ w'.dirs) ∧
    (∀ msg w', setup_logger sysEnvDir e lv ld rot ret comp ec true w =
        PyResult.exn msg w' →
      w'.loggerSt.sinks.filter isFileSink = []) := by
  rw [setup_logger_eq]
  by_cases hm : w.mkdirFails (resolvedDir sysEnvDir e ld)
  · simp [hm]
    cases ec <;> simp [isFileSink, consoleSink]
  · simp [hm]
    exact mkdirParents_mem w.dirs (resolvedDir sysEnvDir e ld)

theorem C6_mkdir_before_file_sinks_witness :
    resolvedDir "/sys" envNone none ∈ worldAfterFile.dirs :=
  (C6_mkdir_before_file_sinks "/sys" envNone "INFO" none "10 MB" "30 days" "zip"
    true worldOk).1 worldAfterFile rfl

/-- C7: every call with `enable_console = true` registers exactly one console
sink — colorized, on standard error, at the effective log level — whose
format template holds the timestamp, level, logger name, function, line and
message placeholders. -/
theorem C7_console_sink (sysEnvDir : String) (e : Env) (lv : String)
    (ld : Option String) (rot ret comp : String) (ef : Bool) (w : World)
    (L : String) (hL : L = effective_log_level e lv) :
    (resultSinks (setup_logger sysEnvDir e lv ld rot ret comp true ef w)).filter
        isConsoleSink = [consoleSink L] ∧
    (consoleSink L).dest = SinkDest.stderr ∧
    (consoleSink L).colorize = true ∧
    (consoleSink L).level = L ∧
    strHas (consoleSink L).format "\x7btime" = true ∧
    strHas (consoleSink L).format "\x7blevel" = true ∧
    strHas (consoleSink L).format "\x7bname\x7d" = true ∧
    strHas (consoleSink L).format "\x7bfunction\x7d" = true ∧
    strHas (consoleSink L).format "\x7bline\x7d" = true ∧
    strHas (consoleSink L).format "\x7bmessage\x7d" = true := by
  subst hL
  refine ⟨?_, rfl, rfl, rfl, rfl, rfl, rfl, rfl, rfl, rfl⟩
  rw [setup_logger_eq]
  cases ef <;> by_cases hm : w.mkdirFails (resolvedDir sysEnvDir e ld) <;>
    simp [hm, resultSinks, isConsoleSink, consoleSink, combinedFileSink,
      errorFileSink]

theorem C7_console_sink_witness :
    (resultSinks (setup_logger "/sys" envNone "INFO" none "10 MB" "30 days" "zip"
        true false worldOk)).filter isConsoleSink = [consoleSink "INFO"] ∧
    strHas (consoleSink "INFO").format "\x7bmessage\x7d" = true := by
  have h := C7_console_sink "/sys" envNone "INFO" none "10 MB" "30 days" "zip"
    false worldOk "INFO" rfl
  exact ⟨h.1, h.2.2.2.2.2.2.2.2.2⟩

/-- C8: with console and file output both disabled, `setup_logger` returns
normally (never raises) and leaves zero sinks registered — only the final
debug record is emitted. -/
theorem C8_both_disabled_no_sinks (sysEnvDir : String) (e : Env) (lv : String)
    (ld : Option String) (rot ret comp : String) (w : World) :
    setup_logger sysEnvDir e lv ld rot ret comp false false w =
      PyResult.ok
        { w with loggerSt :=
          { sinks := []
            emitted := w.loggerSt.emitted ++
              [("DEBUG", debugMsg (effective_log_level e lv) false false)] } } := by
  rw [setup_logger_eq]
  simp

/-- C9: a normally returning call emits exactly one INFO record announcing
the resolved directory when (and only when) the file sink is enabled, and
always exactly one DEBUG record summarizing the effective level and the
console/file flags — in that order, appended to the prior emissions. -/
theorem C9_emissions (sysEnvDir : String) (e : Env) (lv : String)
    (ld : Option String) (rot ret comp : String) (ec ef : Bool) (w w' : World)
    (h : setup_logger sysEnvDir e lv ld rot ret comp ec ef w = PyResult.ok w') :
    w'.loggerSt.emitted = w.loggerSt.emitted ++
      (if ef then [("INFO", infoMsg (resolvedDir sysEnvDir e ld))] else []) ++
      [("DEBUG", debugMsg (effective_log_level e lv) ec ef)] := by
  rw [setup_logger_eq] at h
  cases ef
  · simp at h
    rw [← h]
    simp
  · by_cases hm : w.mkdirFails (resolvedDir sysEnvDir e ld)
    · simp [hm] at h
    · simp [hm] at h
      rw [← h]
      simp

theorem C9_emissions_witness :
    worldAfterFile.loggerSt.emitted = ([] : List (String × String)) ++
      [("INFO", infoMsg (resolvedDir "/sys" envNone none))] ++
      [("DEBUG", debugMsg (effective_log_level envNone "INFO") true true)] :=
  C9_emissions "/sys" envNone "INFO" none "10 MB" "30 days" "zip" true true
    worldOk worldAfterFile rfl

/-- C10: a caller-supplied `log_dir` is used as given — the resolved
directory is exactly `d`, the whole call is insensitive to `LOG_DIR`, the
registered file sinks live under `d`, and `LOG_DIR` enters directory
resolution only through `get_log_dir`, which is consulted only when
`log_dir` is `None`. -/
theorem C10_explicit_log_dir (sysEnvDir : String) (e : Env) (lv d : String)
    (rot ret comp : String) (ec ef : Bool) (w : World) (o : Option String) :
    setup_logger sysEnvDir e lv (some d) rot ret comp ec ef w =
      setup_logger sysEnvDir { e with LOG_DIR := o } lv (some d) rot ret comp
        ec ef w ∧
    resolvedDir sysEnvDir e (some d) = d ∧
    resolvedDir sysEnvDir e none = get_log_dir sysEnvDir e ∧
    (w.mkdirFails d = false →
      ∃ w', setup_logger sysEnvDir e lv (some d) rot ret comp ec true w =
          PyResult.ok w' ∧
        w'.loggerSt.sinks.filter isFileSink =
          [combinedFileSink d (effective_rotation e rot) (effective_retention e ret)
             comp,
           errorFileSink d (effective_rotation e rot) (effective_retention e ret)
             comp]) := by
  refine ⟨rfl, rfl, rfl, ?_⟩
  intro hm
  rw [setup_logger_eq]
  simp [resolvedDir, hm]
  cases ec <;> simp [isFileSink, consoleSink, combinedFileSink, errorFileSink]

theorem C10_explicit_log_dir_witness :
    ∃ w', setup_logger "/sys" { envNone with LOG_DIR := some "/elsewhere" } "INFO"
        (some "/given") "10 MB" "30 days" "zip" false true worldOk =
        PyResult.ok w' ∧
      w'.loggerSt.sinks.filter isFileSink =
        [combinedFileSink "/given" "10 MB" "30 days" "zip",
         errorFileSink "/given" "10 MB" "30 days" "zip"] :=
  (C10_explicit_log_dir "/sys" { envNone with LOG_DIR := some "/elsewhere" } "INFO"
    "/given" "10 MB" "30 days" "zip" false true worldOk none).2.2.2 rfl


end ValuecellLogger
